import Mathlib

set_option linter.unusedVariables false

/-!
Verification development for the OSS C++ SDK request pipeline
(OssClientImpl.cc, OssRequest.cc, CompleteMultipartUploadRequest,
ClientConfiguration / DefaultRetryStrategy).

The definitions below are a shallow embedding of the C++ sources.
Helpers that live outside the provided sources (Utils.cc, SignUtils.cc,
Types.h constants) are modelled from the specification and carry a doc
comment saying so.
-/

namespace OssSdk

/-- ASCII lower-casing of one character, for case-insensitive header names. -/
def asciiLower (c : Char) : Char :=
  if 'A' ≤ c ∧ c ≤ 'Z' then Char.ofNat (c.toNat + 32) else c

/-- ASCII lower-casing of a string. -/
def lowerStr (s : String) : String :=
  String.mk (s.data.map asciiLower)

/-- Modelled from the spec: HttpRequest/HttpResponse headers form a
case-insensitive ordered mapping (the header map type is declared outside the
provided sources), so header names compare equal up to ASCII case. -/
def headerKeyEq (a b : String) : Bool :=
  lowerStr a == lowerStr b

/-- Lexicographic byte-order comparison on character lists (strcmp order). -/
def lexLe : List Char → List Char → Bool
  | [], _ => true
  | _ :: _, [] => false
  | a :: as, b :: bs =>
    if a.toNat < b.toNat then true
    else if b.toNat < a.toNat then false
    else lexLe as bs

/-- strcmp-style ordering on strings, as used by std::map of std::string. -/
def strLe (a b : String) : Bool := lexLe a.data b.data

/-- Whether the first character list is an initial segment of the second. -/
def listPre : List Char → List Char → Bool
  | [], _ => true
  | _ :: _, [] => false
  | a :: as, b :: bs => a == b && listPre as bs

/-- Whether the string t is an initial segment of the string s. -/
def strStartsWith (s t : String) : Bool := listPre t.data s.data

/-- ASCII whitespace, for trimming header values. -/
def isAsciiWhitespace (c : Char) : Bool :=
  c == ' ' || c == '\t' || c == '\n' || c == '\r'

/-- Trim surrounding ASCII whitespace from a string. -/
def trimStr (s : String) : String :=
  String.mk (((s.data.dropWhile isAsciiWhitespace).reverse.dropWhile
    isAsciiWhitespace).reverse)

/-- The UTF-8 byte length of one character. -/
def charUtf8Len (c : Char) : Nat :=
  if c.toNat < 0x80 then 1
  else if c.toNat < 0x800 then 2
  else if c.toNat < 0x10000 then 3
  else 4

/-- The UTF-8 byte length of a string. -/
def utf8Len (s : String) : Nat := (s.data.map charUtf8Len).sum

/-- Insert one element into a sorted list (insertion-sort step). -/
def insertLe (le : α → α → Bool) (x : α) : List α → List α
  | [] => [x]
  | y :: ys => if le x y then x :: y :: ys else y :: insertLe le x ys

/-- Insertion sort, used to model iteration order of std::map. -/
def sortLe (le : α → α → Bool) : List α → List α
  | [] => []
  | x :: xs => insertLe le x (sortLe le xs)

/-- An association list of header name/value pairs, in insertion order. -/
abbrev HeaderList := List (String × String)

/-- Case-insensitive lookup of a header value (std::map::find on the
case-insensitive header map). -/
def hdrFind? : HeaderList → String → Option String
  | [], _ => none
  | (k, v) :: t, n => if headerKeyEq k n then some v else hdrFind? t n

/-- HttpMessage::hasHeader. -/
def hdrHas (h : HeaderList) (n : String) : Bool := (hdrFind? h n).isSome

/-- HttpMessage::Header: the value of a header, or the empty string when the
header is absent. -/
def hdrGet (h : HeaderList) (n : String) : String := (hdrFind? h n).getD ""

/-- Map-assignment on the header collection: replace the value at an existing
(case-insensitively equal) key, else append a new entry. -/
def hdrSet : HeaderList → String → String → HeaderList
  | [], n, v => [(n, v)]
  | (k, w) :: t, n, v =>
    if headerKeyEq k n then (k, v) :: t else (k, w) :: hdrSet t n v

/-- HttpMessage::removeHeader: erase every entry at the given key. -/
def hdrRemove (h : HeaderList) (n : String) : HeaderList :=
  h.filter (fun p => !headerKeyEq p.1 n)

/-- Exact-key map assignment, for std::map of std::string parameters. -/
def paramAssign : List (String × String) → String → String → List (String × String)
  | [], n, v => [(n, v)]
  | (k, w) :: t, n, v => if k == n then (k, v) :: t else (k, w) :: paramAssign t n v

/-- Copying an association list into a std::map (later assignments win). -/
def paramMapOf (ps : List (String × String)) : List (String × String) :=
  ps.foldl (fun acc p => paramAssign acc p.1 p.2) []

/-- The parameter collection as iterated by std::map: unique keys in strcmp
order. -/
def sortedParams (ps : List (String × String)) : List (String × String) :=
  sortLe (fun a b => strLe a.1 b.1) (paramMapOf ps)

/-- Modelled from the spec: ERROR_CURL_BASE (declared in Types.h, which is not
among the provided sources) is the offset that places libcurl transport error
codes outside the HTTP status range. -/
def ERROR_CURL_BASE : Int := 0x1000000

/-- Modelled from the spec: the distinguished status code reported on a CRC64
mismatch (declared in Types.h, which is not among the provided sources). -/
def ERROR_CRC_INCONSISTENT : Int := 0x2000001

/-- A transport-level error as seen by the retry strategy and buildError. -/
structure Error where
  status : Int
  code : String
  message : String
  headers : HeaderList
deriving DecidableEq

/-- The typed error carried by a failure outcome (OssError). -/
structure OssError where
  code : String := ""
  message : String := ""
  requestId : String := ""
  host : String := ""
deriving DecidableEq

/-- HTTP methods used by the client. -/
inductive HttpMethod where
  | Get
  | Put
  | Post
  | Delete
  | Head
deriving DecidableEq

/-- Modelled from the spec: Http::MethodToString (HttpType.cc is not among the
provided sources) yields the uppercased wire spelling. -/
def methodToString : HttpMethod → String
  | .Get => "GET"
  | .Put => "PUT"
  | .Post => "POST"
  | .Delete => "DELETE"
  | .Head => "HEAD"

/-- A URL, tracked as the string it serializes to. -/
structure Url where
  str : String
deriving DecidableEq

/-- The request flag set {CONTENT_MD5, PARAM_IN_PATH, CHECK_CRC64}. -/
structure RequestFlags where
  contentMd5 : Bool := false
  paramInPath : Bool := false
  checkCrc64 : Bool := false
deriving DecidableEq

/-- The data a ServiceRequest exposes to buildHttpRequest: flags, headers,
parameters, bucket, key, a pre-composed path, and an optional body. -/
structure ServiceRequest where
  flags : RequestFlags := {}
  headers : HeaderList := []
  parameters : List (String × String) := []
  bucket : String := ""
  key : String := ""
  path : String := ""
  body : Option String := none
deriving DecidableEq

/-- The outgoing HttpRequest assembled by buildHttpRequest. -/
structure HttpRequest where
  method : HttpMethod
  headers : HeaderList := []
  url : Option Url := none
  body : Option String := none
  checkCrc64 : Bool := false
deriving DecidableEq

/-- HttpMessage::addHeader (map assignment). -/
def HttpRequest.addHeader (r : HttpRequest) (n v : String) : HttpRequest :=
  { r with headers := hdrSet r.headers n v }

/-- HttpMessage::setHeader (map assignment). -/
def HttpRequest.setHeader (r : HttpRequest) (n v : String) : HttpRequest :=
  { r with headers := hdrSet r.headers n v }

/-- HttpMessage::removeHeader. -/
def HttpRequest.removeHeader (r : HttpRequest) (n : String) : HttpRequest :=
  { r with headers := hdrRemove r.headers n }

/-- HttpMessage::setUrl. -/
def HttpRequest.setUrl (r : HttpRequest) (u : Url) : HttpRequest :=
  { r with url := some u }

/-- Access credentials returned by the credentials provider. -/
structure Credentials where
  accessKeyId : String
  accessKeySecret : String
  sessionToken : String := ""
deriving DecidableEq

/-- The configuration fields consumed by the embedded pipeline functions
(ClientConfiguration defaults: isCname false, enableCrc64 true). -/
structure ClientConfiguration where
  userAgent : String := "aliyun-sdk-cpp"
  isCname : Bool := false
  enableCrc64 : Bool := true

/-- External collaborators of the pipeline: the clock, the MD5 digest, and
the HMAC-SHA1 signer (HmacSha1Signer::generate over canonical string and
secret). -/
structure Externals where
  gmtNow : String
  computeContentMD5 : String → String
  signerGenerate : String → String → String

/-- Modelled from the spec: GetIOStreamLength (Utils.cc is not among the
provided sources) yields the byte length of the body stream. -/
def GetIOStreamLength (s : String) : Nat := utf8Len s

/-- The canonical resource built inline by OssClientImpl::addSignInfo:
start from a slash, append bucket and a slash when the bucket is non-empty,
then append the key when the key is non-empty. -/
def canonicalResource (bucket key : String) : String :=
  let resource := "/"
  let resource := if bucket ≠ "" then resource ++ bucket ++ "/" else resource
  if key ≠ "" then resource ++ key else resource

/-- Modelled from the spec: the fixed whitelist of subresource parameter
names that participate in signing (SignUtils.cc is not among the provided
sources). -/
def subresourceNames : List String :=
  ["acl", "uploadId", "partNumber", "location", "lifecycle", "logging",
   "website", "referer", "cors", "delete", "stat", "bucketInfo",
   "storageCapacity", "symlink", "restore", "objectMeta", "uploads",
   "continuation-token", "encoding-type", "security-token", "x-oss-process",
   "versionId"]

/-- Modelled from the spec: whether a parameter name is a subresource
(whitelisted names plus the response-* family). -/
def isSubresource (k : String) : Bool :=
  subresourceNames.contains k || strStartsWith k "response-"

/-- Modelled from the spec: the sorted x-oss- header block of the canonical
string, one name:value line per header whose lowercased name starts with
x-oss-, values trimmed. -/
def ossHeaderLines (headers : HeaderList) : String :=
  let xs := headers.filterMap (fun p =>
    if strStartsWith (lowerStr p.1) "x-oss-" then some (lowerStr p.1, trimStr p.2) else none)
  let xs := sortLe (fun a b => strLe a.1 b.1) xs
  xs.foldl (fun acc p => acc ++ p.1 ++ ":" ++ p.2 ++ "\n") ""

/-- Modelled from the spec: the subresource query appended to the canonical
resource: whitelisted parameters sorted by name, joined with ampersands,
question-mark prefixed; a parameter without a value contributes only its
name. -/
def subresourceQuery (params : List (String × String)) : String :=
  let xs := params.filter (fun p => isSubresource p.1)
  let xs := sortLe (fun a b => strLe a.1 b.1) xs
  match xs with
  | [] => ""
  | _ => "?" ++ String.intercalate "&"
      (xs.map (fun p => if p.2 = "" then p.1 else p.1 ++ "=" ++ p.2))

/-- Modelled from the spec: SignUtils::build (SignUtils.cc is not among the
provided sources) concatenates method, Content-MD5, Content-Type, date, the
sorted x-oss- header block, the canonical resource, and the subresource
query. -/
def signUtilsBuild (method resource date : String)
    (headers : HeaderList) (params : List (String × String)) : String :=
  method ++ "\n" ++ hdrGet headers "Content-MD5" ++ "\n" ++
  hdrGet headers "Content-Type" ++ "\n" ++ date ++ "\n" ++
  ossHeaderLines headers ++ resource ++ subresourceQuery params

/-- Hexadecimal digit (uppercase), for percent-encoding. -/
def hexDigit (n : Nat) : Char :=
  if n < 10 then Char.ofNat (48 + n) else Char.ofNat (55 + n)

/-- Modelled from the spec: percent-encoding of one character, leaving
unreserved characters alone (UrlEncode lives in Utils.cc, which is not among
the provided sources). -/
def pctEncodeChar (c : Char) : List Char :=
  if c.isAlphanum || c = '-' || c = '_' || c = '.' || c = '~' then [c]
  else ['%', hexDigit (c.toNat / 16 % 256 % 16), hexDigit (c.toNat % 16)]

/-- Modelled from the spec: UrlEncode percent-encodes every reserved
character. -/
def UrlEncode (s : String) : String :=
  String.mk (s.data.map pctEncodeChar).flatten

/-- Modelled from the spec: percent-encode a key path segment-wise,
preserving the slashes. -/
def encodePath (key : String) : String :=
  String.intercalate "/" ((key.splitOn "/").map UrlEncode)

/-- Modelled from the spec: a crude IP-endpoint detector used to pick
path-style addressing. -/
def isIpLikeEndpoint (endpoint : String) : Bool :=
  endpoint ≠ "" && endpoint.data.all (fun c => c.isDigit || c = '.' || c = ':')

/-- Modelled from the spec: CombineHostString (Utils.cc is not among the
provided sources): virtual-hosted style unless CNAME or IP endpoint or empty
bucket. -/
def CombineHostString (endpoint bucket : String) (isCname : Bool) : String :=
  if isCname || bucket = "" || isIpLikeEndpoint endpoint then endpoint
  else bucket ++ "." ++ endpoint

/-- Modelled from the spec: CombinePathString (Utils.cc is not among the
provided sources): path-style includes the bucket for IP endpoints. -/
def CombinePathString (endpoint bucket key : String) : String :=
  if isIpLikeEndpoint endpoint && bucket ≠ "" then
    "/" ++ bucket ++ "/" ++ encodePath key
  else
    "/" ++ encodePath key

/-- OssClientImpl::addHeaders: copy the request headers, add the configured
User-Agent, and add a Date header (the current GMT time) when absent. -/
def addHeaders (cfg : ClientConfiguration) (ext : Externals)
    (httpRequest : HttpRequest) (headers : HeaderList) : HttpRequest :=
  let r := headers.foldl (fun (a : HttpRequest) (p : String × String) =>
    a.addHeader p.1 p.2) httpRequest
  let r := r.addHeader "User-Agent" cfg.userAgent
  if hdrHas r.headers "Date" then r else r.addHeader "Date" ext.gmtNow

/-- OssClientImpl::addBody: with no body, Content-Length is 0 for GET/POST
and stripped otherwise; with a body, Content-Length is computed when absent
and Content-MD5 is computed when the flag asks for it and the header is
absent. -/
def addBody (ext : Externals) (httpRequest : HttpRequest)
    (body : Option String) (contentMd5 : Bool) : HttpRequest :=
  match body with
  | none =>
    let r :=
      if httpRequest.method = HttpMethod.Get ∨ httpRequest.method = HttpMethod.Post then
        httpRequest.setHeader "Content-Length" "0"
      else
        httpRequest.removeHeader "Content-Length"
    { r with body := none }
  | some b =>
    let r :=
      if !hdrHas httpRequest.headers "Content-Length" then
        httpRequest.setHeader "Content-Length" (toString (GetIOStreamLength b))
      else httpRequest
    let r :=
      if contentMd5 && !hdrHas r.headers "Content-MD5" then
        r.setHeader "Content-MD5" (ext.computeContentMD5 b)
      else r
    { r with body := some b }

/-- The canonical string addSignInfo feeds to the signer, as a function of
the request state at signing time. -/
def canonicalOf (r : HttpRequest) (request : ServiceRequest) : String :=
  signUtilsBuild (methodToString r.method)
    (canonicalResource request.bucket request.key)
    (hdrGet r.headers "Date") r.headers (sortedParams request.parameters)

/-- The first step of addSignInfo: add the x-oss-security-token header when
the credentials carry a session token. -/
def withSecurityToken (creds : Credentials) (httpRequest : HttpRequest) : HttpRequest :=
  if creds.sessionToken ≠ "" then
    httpRequest.addHeader "x-oss-security-token" creds.sessionToken
  else httpRequest

/-- OssClientImpl::addSignInfo: add the security token header when the
credentials carry one, build the canonical string, sign it, and set the
Authorization header to OSS keyId colon signature. -/
def addSignInfo (creds : Credentials) (ext : Externals)
    (httpRequest : HttpRequest) (request : ServiceRequest) : HttpRequest :=
  let r := withSecurityToken creds httpRequest
  let canonical := canonicalOf r request
  let signature := ext.signerGenerate canonical creds.accessKeySecret
  r.addHeader "Authorization" ("OSS " ++ creds.accessKeyId ++ ":" ++ signature)

/-- OssClientImpl::addUrl: compose host and path, then attach the
URL-encoded query joined from the request parameters. -/
def addUrl (cfg : ClientConfiguration) (httpRequest : HttpRequest)
    (endpoint : String) (request : ServiceRequest) : HttpRequest :=
  let host := CombineHostString endpoint request.bucket cfg.isCname
  let path := CombinePathString endpoint request.bucket request.key
  let params := sortedParams request.parameters
  let query :=
    match params with
    | [] => ""
    | _ => String.intercalate "&"
        (params.map (fun p =>
          if p.2 = "" then UrlEncode p.1 else UrlEncode p.1 ++ "=" ++ UrlEncode p.2))
  httpRequest.setUrl ⟨host ++ path ++ (if query = "" then "" else "?" ++ query)⟩

/-- OssClientImpl::addOther: mark the request for CRC64 checking when the
configuration enables CRC64, the request carries the CHECK_CRC64 flag, and
no Range header is present. -/
def addOther (cfg : ClientConfiguration) (httpRequest : HttpRequest)
    (request : ServiceRequest) : HttpRequest :=
  if cfg.enableCrc64 && request.flags.checkCrc64 && !hdrHas httpRequest.headers "Range" then
    { httpRequest with checkCrc64 := true }
  else httpRequest

/-- The freshly constructed HttpRequest(method). -/
def initialHttpRequest (method : HttpMethod) : HttpRequest :=
  { method := method, headers := [], url := none, body := none, checkCrc64 := false }

/-- OssClientImpl::buildHttpRequest: add headers and body; when the
PARAM_IN_PATH flag is set, use the request's pre-composed path as the URL,
otherwise sign and compose the URL; finally run addOther. -/
def buildHttpRequest (cfg : ClientConfiguration) (creds : Credentials)
    (ext : Externals) (endpoint : String) (msg : ServiceRequest)
    (method : HttpMethod) : HttpRequest :=
  let httpRequest := initialHttpRequest method
  let calcContentMD5 := msg.flags.contentMd5
  let paramInPath := msg.flags.paramInPath
  let r := addHeaders cfg ext httpRequest msg.headers
  let r := addBody ext r msg.body calcContentMD5
  let r :=
    if paramInPath then r.setUrl ⟨msg.path⟩
    else addUrl cfg (addSignInfo creds ext r msg) endpoint msg
  addOther cfg r msg

/-- Reinterpret an unbounded integer as a two's-complement 32-bit machine
int: reduce modulo 2 to the 32 and shift the upper half down. -/
def toInt32 (n : Int) : Int :=
  let m := n % (2 ^ 32)
  if m < 2 ^ 31 then m else m - 2 ^ 32

/-- Reinterpret an unbounded integer as a two's-complement 64-bit machine
long (LP64). -/
def toInt64 (n : Int) : Int :=
  let m := n % (2 ^ 64)
  if m < 2 ^ 63 then m else m - 2 ^ 64

/-- The default retry strategy; the constructor defaults are
maxRetries 3 and scaleFactor 300. -/
structure DefaultRetryStrategy where
  m_scaleFactor : Int := 300
  m_maxRetries : Int := 3
deriving DecidableEq

/-- A DefaultRetryStrategy built with the constructor defaults, as used by
ClientConfiguration(). -/
def defaultRetryStrategy : DefaultRetryStrategy := {}

/-- DefaultRetryStrategy::shouldRetry: refuse once the attempt count reaches
maxRetries; retry on 5xx status codes (strictly between 499 and 599) and on
the seven listed curl transport error codes. -/
def DefaultRetryStrategy.shouldRetry (s : DefaultRetryStrategy)
    (error : Error) (attemptedRetries : Int) : Bool :=
  if attemptedRetries ≥ s.m_maxRetries then false
  else
    let responseCode := error.status
    if responseCode > 499 ∧ responseCode < 599 then true
    else if responseCode = ERROR_CURL_BASE + 7 ∨
            responseCode = ERROR_CURL_BASE + 18 ∨
            responseCode = ERROR_CURL_BASE + 23 ∨
            responseCode = ERROR_CURL_BASE + 28 ∨
            responseCode = ERROR_CURL_BASE + 52 ∨
            responseCode = ERROR_CURL_BASE + 55 ∨
            responseCode = ERROR_CURL_BASE + 56 then true
    else false

/-- DefaultRetryStrategy::calcDealyTimeMs: the int literal one shifted left
by the attempt count, times the long scale factor; the error argument is
unused. The C++ shift acts on a 32-bit int, so the shifted value is the
power of two truncated to a two's-complement 32-bit int (for shift counts
past 31 the C++ is undefined and the truncation models the ubiquitous
two's-complement result), and the product lives in a 64-bit long. -/
def DefaultRetryStrategy.calcDealyTimeMs (s : DefaultRetryStrategy)
    (error : Error) (attemptedRetries : Nat) : Int :=
  toInt64 (toInt32 (2 ^ attemptedRetries) * s.m_scaleFactor)

/-- The HttpResponse as seen by OssClientImpl::hasResponseError, together
with the fields of the originating request that the check reads through the
response's back-reference. -/
structure HttpResponse where
  statusCode : Int
  statusMsg : String := ""
  headers : HeaderList := []
  body : String := ""
  reqHasCheckCrc64 : Bool := false
  reqCrc64Result : Nat := 0
  reqTransferedBytes : Nat := 0
deriving DecidableEq

/-- Modelled from the spec: the base Client::hasResponseError (Client.cc is
not among the provided sources) reports an error exactly when the status is
not a success status, statuses below 300 being successes. -/
def baseHasResponseError (response : HttpResponse) : Bool :=
  decide (response.statusCode ≥ 300)

/-- strtoull with base 10 on a header value: accumulate the leading decimal
digits, saturating at the largest 64-bit value. -/
def strtoull10Core : List Char → Nat → Nat
  | [], acc => acc
  | c :: t, acc => if c.isDigit then strtoull10Core t (acc * 10 + (c.toNat - 48)) else acc

/-- strtoull(s, nullptr, 10) on a header value. -/
def strtoull10 (s : String) : Nat :=
  min (strtoull10Core s.data 0) (2 ^ 64 - 1)

/-- The diagnostic message produced on a CRC64 mismatch. -/
def crcMismatchMsg (serverCrc64 clientCrc64 transferedBytes : Nat)
    (requestId : String) : String :=
  "Crc64 validation failed. Expected hash:" ++ toString serverCrc64 ++
  " not equal to calculated hash:" ++ toString clientCrc64 ++
  ". Transferd bytes:" ++ toString transferedBytes ++
  ". RequestId:" ++ requestId

/-- OssClientImpl::hasResponseError: after the base check, when the request
asked for CRC64 checking and the response carries x-oss-hash-crc64ecma,
compare the client CRC64 with the decimal header value; on mismatch set the
status code to ERROR_CRC_INCONSISTENT and the diagnostic message. The
returned pair is the boolean result and the (possibly updated) response. -/
def hasResponseError (response : HttpResponse) : Bool × HttpResponse :=
  if baseHasResponseError response then (true, response)
  else if response.reqHasCheckCrc64 && hdrHas response.headers "x-oss-hash-crc64ecma" then
    if response.reqCrc64Result ≠ strtoull10 (hdrGet response.headers "x-oss-hash-crc64ecma") then
      (true,
       { response with
           statusCode := ERROR_CRC_INCONSISTENT,
           statusMsg := crcMismatchMsg
             (strtoull10 (hdrGet response.headers "x-oss-hash-crc64ecma"))
             response.reqCrc64Result
             response.reqTransferedBytes (hdrGet response.headers "x-oss-request-id") })
    else (false, response)
  else (false, response)

/-- A parsed XML element: tinyxml2's element name, child elements, and the
text returned by GetText (empty when the element has no text). -/
structure XmlElement where
  name : String
  children : List XmlElement
  text : String

/-- The outcome of tinyxml2's XMLDocument::Parse on the error body: a parse
failure with its numeric error id and name, or a document whose root element
may be absent. -/
inductive XmlParse where
  | failure (errId : Nat) (errName : String)
  | success (root : Option XmlElement)

/-- FirstChildElement(name) followed by GetText, with a missing child
yielding the empty string. -/
def childText (r : XmlElement) (n : String) : String :=
  match r.children.find? (fun c => c.name == n) with
  | some c => c.text
  | none => ""

/-- The root-name test of OssClientImpl::buildError: strncmp of the name
against the five characters of the word Error, i.e. a five-character
prefix comparison. -/
def rootNameIsError (name : String) : Bool :=
  name.data.take 5 == "Error".data

/-- The final step of OssClientImpl::buildError: an empty request id is
backfilled from the x-oss-request-id header carried by the error. -/
def backfillRequestId (err : OssError) (headers : HeaderList) : OssError :=
  if err.requestId = "" then
    match hdrFind? headers "x-oss-request-id" with
    | some v => { err with requestId := v }
    | none => err
  else err

/-- OssClientImpl::buildError: for statuses strictly between 299 and 600
with a non-empty body, parse the body; a well-formed document whose root
passes the five-character name test yields the Code, Message, RequestId and
HostId child texts, any other root yields the ParseXMLError envelope with
the raw body, a parse failure yields ParseXMLError with the parser's error
id and name; other statuses copy the transport code and message. Finally an
empty request id is backfilled from the x-oss-request-id response header. -/
def buildError (error : Error) (parsed : XmlParse) : OssError :=
  backfillRequestId
    (if error.status > 299 ∧ error.status < 600 ∧ error.message ≠ "" then
      match parsed with
      | XmlParse.success root =>
        match root with
        | some r =>
          if rootNameIsError r.name then
            { code := childText r "Code", message := childText r "Message",
              requestId := childText r "RequestId", host := childText r "HostId" }
          else
            { code := "ParseXMLError",
              message := "Xml format invalid, root node name is not Error. the content is:\n"
                ++ error.message }
        | none =>
          { code := "ParseXMLError",
            message := "Xml format invalid, root node name is not Error. the content is:\n"
              ++ error.message }
      | XmlParse.failure errId errName =>
        { code := "ParseXMLError:" ++ toString errId, message := errName }
     else
      { code := error.code, message := error.message })
    error.headers

/-- The generic ServiceResult assembled by OssClientImpl::buildResult. -/
structure ServiceResult where
  requestId : String := ""
  payload : String := ""
  responseCode : Int := 0
  headers : HeaderList := []
deriving DecidableEq

/-- OssClientImpl::buildResult: request id from the x-oss-request-id header,
body, status code and header collection of the HTTP response. -/
def buildResult (httpResponse : HttpResponse) : ServiceResult :=
  { requestId := hdrGet httpResponse.headers "x-oss-request-id",
    payload := httpResponse.body,
    responseCode := httpResponse.statusCode,
    headers := httpResponse.headers }

/-- The outcome of the base Client::AttemptRequest dispatch. -/
inductive ClientOutcome where
  | success (response : HttpResponse)
  | failure (error : Error)

/-- The generic outcome returned by OssClientImpl::MakeRequest. -/
inductive OssOutcome where
  | success (result : ServiceResult)
  | failure (error : OssError)
deriving DecidableEq

/-- The interface of an OssRequest that MakeRequest consumes: the result of
request.validate() and the validateMessage translation. -/
structure GenericOssRequest where
  validateCode : Int
  validateMessage : Int → String

/-- OssClientImpl::MakeRequest: a nonzero validate() result short-circuits
into a ValidateError failure; otherwise the request is dispatched through
AttemptRequest and the outcome is built with buildResult or buildError. The
boolean records whether the transport (AttemptRequest) was invoked. -/
def MakeRequest (request : GenericOssRequest)
    (attemptRequest : Unit → ClientOutcome)
    (xmlParse : String → XmlParse) : OssOutcome × Bool :=
  if request.validateCode ≠ 0 then
    (OssOutcome.failure
      { code := "ValidateError",
        message := request.validateMessage request.validateCode }, false)
  else
    match attemptRequest () with
    | ClientOutcome.success response => (OssOutcome.success (buildResult response), true)
    | ClientOutcome.failure error =>
      (OssOutcome.failure (buildError error (xmlParse error.message)), true)

/-- Modelled from the spec: the error codes of ModelError.h (not among the
provided sources) are distinct nonzero values. -/
def ARG_ERROR_BUCKET_NAME : Int := 100001

/-- Modelled from the spec: nonzero validate() code for an invalid object
key. -/
def ARG_ERROR_OBJECT_NAME : Int := 100002

/-- Modelled from the spec: nonzero validate() code for an empty multipart
part list. -/
def ARG_ERROR_MULTIPARTUPLOAD_PARTLIST_EMPTY : Int := 100003

/-- Modelled from the spec: IsValidBucketName (Utils.cc is not among the
provided sources): 3 to 63 characters, lowercase letters, digits and
hyphens, with no leading or trailing hyphen. -/
def IsValidBucketName (s : String) : Bool :=
  3 ≤ s.data.length && s.data.length ≤ 63 &&
  s.data.all (fun c => c.isLower || c.isDigit || c = '-') &&
  !(s.data.take 1 == ['-']) && !(s.data.reverse.take 1 == ['-'])

/-- Modelled from the spec: IsValidObjectKey (Utils.cc is not among the
provided sources): 1 to 1023 UTF-8 bytes, no leading slash or backslash. -/
def IsValidObjectKey (s : String) : Bool :=
  1 ≤ utf8Len s && utf8Len s ≤ 1023 &&
  !strStartsWith s "/" && !strStartsWith s "\\"

/-- OssObjectRequest::validate: invalid bucket, then invalid key, else
success. -/
def OssObjectRequest.validate (bucket key : String) : Int :=
  if !IsValidBucketName bucket then ARG_ERROR_BUCKET_NAME
  else if !IsValidObjectKey key then ARG_ERROR_OBJECT_NAME
  else 0

/-- One part of a multipart upload. -/
structure Part where
  partNumber : Int
  eTag : String
deriving DecidableEq

/-- CompleteMultipartUploadRequest: bucket, key, part list and upload id. -/
structure CompleteMultipartUploadRequest where
  bucket : String
  key : String
  partList : List Part
  uploadId : String
deriving DecidableEq

/-- CompleteMultipartUploadRequest::validate: the object-request check
(bucket and key), then failure when the part list is empty, else success. -/
def CompleteMultipartUploadRequest.validate
    (r : CompleteMultipartUploadRequest) : Int :=
  let ret := OssObjectRequest.validate r.bucket r.key
  if ret ≠ 0 then ret
  else if r.partList.isEmpty then ARG_ERROR_MULTIPARTUPLOAD_PARTLIST_EMPTY
  else 0

/-- The result of a successful GetSymlink. -/
structure GetSymlinkResult where
  symlinkTarget : String
  eTag : String
  requestId : String
deriving DecidableEq

/-- The outcome of GetSymlink. -/
inductive GetSymlinkOutcome where
  | success (result : GetSymlinkResult)
  | failure (error : OssError)
deriving DecidableEq

/-- The outcome of CreateSymlink. -/
inductive CreateSymlinkOutcome where
  | success (eTag : String) (requestId : String)
  | failure (error : OssError)
deriving DecidableEq

/-- OssClientImpl::GetSymlink after MakeRequest: on success, read the
x-oss-symlink-target and ETag headers with unchecked map lookup (at); the
value none models the exception thrown when either header is absent. -/
def GetSymlink (outcome : OssOutcome) : Option GetSymlinkOutcome :=
  match outcome with
  | OssOutcome.success result =>
    match hdrFind? result.headers "x-oss-symlink-target",
          hdrFind? result.headers "ETag" with
    | some target, some etag =>
      some (GetSymlinkOutcome.success
        { symlinkTarget := target, eTag := etag, requestId := result.requestId })
    | _, _ => none
  | OssOutcome.failure e => some (GetSymlinkOutcome.failure e)

/-- OssClientImpl::CreateSymlink after MakeRequest: on success, read the
ETag header with unchecked map lookup (at); none models the exception. -/
def CreateSymlink (outcome : OssOutcome) : Option CreateSymlinkOutcome :=
  match outcome with
  | OssOutcome.success result =>
    match hdrFind? result.headers "ETag" with
    | some etag => some (CreateSymlinkOutcome.success etag result.requestId)
    | none => none
  | OssOutcome.failure e => some (CreateSymlinkOutcome.failure e)

/-! Helper lemmas about the case-insensitive header collection. -/

theorem lowerStr_eq_of_headerKeyEq {a b : String}
    (h : headerKeyEq a b = true) : lowerStr a = lowerStr b := by
  unfold headerKeyEq at h
  exact eq_of_beq h

theorem headerKeyEq_congr_left {k n : String} (h : headerKeyEq k n = true)
    (m : String) : headerKeyEq k m = headerKeyEq n m := by
  unfold headerKeyEq
  rw [lowerStr_eq_of_headerKeyEq h]

theorem headerKeyEq_congr_right {n m : String} (h : headerKeyEq n m = true)
    (k : String) : headerKeyEq k m = headerKeyEq k n := by
  unfold headerKeyEq
  rw [lowerStr_eq_of_headerKeyEq h]

theorem headerKeyEq_refl (n : String) : headerKeyEq n n = true := by
  unfold headerKeyEq
  exact beq_self_eq_true _

theorem hdrFind?_nil (m : String) : hdrFind? [] m = none := rfl

theorem hdrFind?_cons (k w : String) (t : HeaderList) (m : String) :
    hdrFind? ((k, w) :: t) m =
      if headerKeyEq k m then some w else hdrFind? t m := rfl

theorem hdrHas_nil (m : String) : hdrHas [] m = false := rfl

theorem hdrHas_cons (k w : String) (t : HeaderList) (m : String) :
    hdrHas ((k, w) :: t) m = (headerKeyEq k m || hdrHas t m) := by
  unfold hdrHas
  rw [hdrFind?_cons]
  cases hkm : headerKeyEq k m <;> simp

theorem hdrSet_nil (n v : String) : hdrSet [] n v = [(n, v)] := rfl

theorem hdrSet_cons (k w : String) (t : HeaderList) (n v : String) :
    hdrSet ((k, w) :: t) n v =
      if headerKeyEq k n then (k, v) :: t else (k, w) :: hdrSet t n v := rfl

theorem hdrRemove_nil (n : String) : hdrRemove [] n = [] := rfl

theorem hdrRemove_cons (k w : String) (t : HeaderList) (n : String) :
    hdrRemove ((k, w) :: t) n =
      if headerKeyEq k n then hdrRemove t n else (k, w) :: hdrRemove t n := by
  unfold hdrRemove
  rw [List.filter_cons]
  cases hkn : headerKeyEq k n <;> simp

theorem hdrFind?_set_pos (h : HeaderList) {n m : String} (v : String)
    (hnm : headerKeyEq n m = true) : hdrFind? (hdrSet h n v) m = some v := by
  induction h with
  | nil => simp [hdrSet_nil, hdrFind?_cons, hnm]
  | cons p t ih =>
    obtain ⟨k, w⟩ := p
    rw [hdrSet_cons]
    cases hkn : headerKeyEq k n
    · have hkm : headerKeyEq k m = false := by
        rw [headerKeyEq_congr_right hnm k]
        exact hkn
      simp only [Bool.false_eq_true, if_false]
      rw [hdrFind?_cons, hkm]
      simp only [Bool.false_eq_true, if_false]
      exact ih
    · have hkm : headerKeyEq k m = true := by
        rw [headerKeyEq_congr_left hkn m]
        exact hnm
      simp [hdrFind?_cons, hkm]

theorem hdrHas_set (h : HeaderList) (n v m : String) :
    hdrHas (hdrSet h n v) m = (headerKeyEq n m || hdrHas h m) := by
  induction h with
  | nil =>
    rw [hdrSet_nil, hdrHas_cons, hdrHas_nil]
  | cons p t ih =>
    obtain ⟨k, w⟩ := p
    rw [hdrSet_cons]
    cases hkn : headerKeyEq k n
    · simp only [Bool.false_eq_true, if_false]
      rw [hdrHas_cons, ih, hdrHas_cons]
      cases headerKeyEq k m <;> cases headerKeyEq n m <;> simp
    · simp only [if_true]
      rw [hdrHas_cons, hdrHas_cons, headerKeyEq_congr_left hkn m]
      cases headerKeyEq n m <;> simp

theorem hdrGet_set_pos (h : HeaderList) {n m : String} (v : String)
    (hnm : headerKeyEq n m = true) : hdrGet (hdrSet h n v) m = v := by
  unfold hdrGet
  rw [hdrFind?_set_pos h v hnm]
  rfl

theorem hdrHas_remove_ne (h : HeaderList) {n m : String}
    (hnm : headerKeyEq n m = false) :
    hdrHas (hdrRemove h n) m = hdrHas h m := by
  induction h with
  | nil => rfl
  | cons p t ih =>
    obtain ⟨k, w⟩ := p
    rw [hdrRemove_cons]
    cases hkn : headerKeyEq k n
    · simp only [Bool.false_eq_true, if_false]
      rw [hdrHas_cons, hdrHas_cons, ih]
    · simp only [if_true]
      have hkm : headerKeyEq k m = false := by
        rw [headerKeyEq_congr_left hkn m]
        exact hnm
      rw [hdrHas_cons, hkm, ih]
      simp

/-! Frame lemmas for the buildHttpRequest pipeline. -/

theorem addHeader_has (r : HttpRequest) (n v m : String) :
    hdrHas (r.addHeader n v).headers m = (headerKeyEq n m || hdrHas r.headers m) :=
  hdrHas_set r.headers n v m

theorem setHeader_has (r : HttpRequest) (n v m : String) :
    hdrHas (r.setHeader n v).headers m = (headerKeyEq n m || hdrHas r.headers m) :=
  hdrHas_set r.headers n v m

theorem removeHeader_has (r : HttpRequest) {n m : String}
    (hnm : headerKeyEq n m = false) :
    hdrHas (r.removeHeader n).headers m = hdrHas r.headers m :=
  hdrHas_remove_ne r.headers hnm

theorem foldAdd_checkCrc64 (hs : HeaderList) (r : HttpRequest) :
    (List.foldl (fun (a : HttpRequest) (p : String × String) =>
      a.addHeader p.1 p.2) r hs).checkCrc64 = r.checkCrc64 := by
  induction hs generalizing r with
  | nil => rfl
  | cons p t ih =>
    rw [List.foldl_cons, ih]
    rfl

theorem foldAdd_method (hs : HeaderList) (r : HttpRequest) :
    (List.foldl (fun (a : HttpRequest) (p : String × String) =>
      a.addHeader p.1 p.2) r hs).method = r.method := by
  induction hs generalizing r with
  | nil => rfl
  | cons p t ih =>
    rw [List.foldl_cons, ih]
    rfl

theorem foldAdd_has (hs : HeaderList) (r : HttpRequest) (n : String) :
    hdrHas (List.foldl (fun (a : HttpRequest) (p : String × String) =>
      a.addHeader p.1 p.2) r hs).headers n =
      ((hs.any fun p => headerKeyEq p.1 n) || hdrHas r.headers n) := by
  induction hs generalizing r with
  | nil => simp
  | cons p t ih =>
    rw [List.foldl_cons, ih, addHeader_has, List.any_cons]
    cases headerKeyEq p.1 n <;>
      cases t.any (fun p => headerKeyEq p.1 n) <;>
      cases hdrHas r.headers n <;> rfl

theorem addHeaders_checkCrc64 (cfg : ClientConfiguration) (ext : Externals)
    (r : HttpRequest) (hs : HeaderList) :
    (addHeaders cfg ext r hs).checkCrc64 = r.checkCrc64 := by
  simp only [addHeaders]
  split
  · rw [show ∀ (a : HttpRequest) (n v : String),
        (a.addHeader n v).checkCrc64 = a.checkCrc64 from fun _ _ _ => rfl]
    exact foldAdd_checkCrc64 hs r
  · rw [show ∀ (a : HttpRequest) (n v : String),
        (a.addHeader n v).checkCrc64 = a.checkCrc64 from fun _ _ _ => rfl]
    rw [show ∀ (a : HttpRequest) (n v : String),
        (a.addHeader n v).checkCrc64 = a.checkCrc64 from fun _ _ _ => rfl]
    exact foldAdd_checkCrc64 hs r

theorem addHeaders_has (cfg : ClientConfiguration) (ext : Externals)
    (r : HttpRequest) (hs : HeaderList) (n : String)
    (hUA : headerKeyEq "User-Agent" n = false)
    (hD : headerKeyEq "Date" n = false) :
    hdrHas (addHeaders cfg ext r hs).headers n =
      ((hs.any fun p => headerKeyEq p.1 n) || hdrHas r.headers n) := by
  simp only [addHeaders]
  split
  · rw [addHeader_has, foldAdd_has, hUA]
    simp
  · rw [addHeader_has, addHeader_has, foldAdd_has, hUA, hD]
    simp

theorem addBody_checkCrc64 (ext : Externals) (r : HttpRequest)
    (b : Option String) (md5 : Bool) :
    (addBody ext r b md5).checkCrc64 = r.checkCrc64 := by
  cases b with
  | none =>
    simp only [addBody]
    split <;> rfl
  | some s =>
    simp only [addBody]
    split <;> split <;> rfl

theorem addBody_method (ext : Externals) (r : HttpRequest)
    (b : Option String) (md5 : Bool) :
    (addBody ext r b md5).method = r.method := by
  cases b with
  | none =>
    simp only [addBody]
    split <;> rfl
  | some s =>
    simp only [addBody]
    split <;> split <;> rfl

theorem addBody_has (ext : Externals) (r : HttpRequest)
    (b : Option String) (md5 : Bool) (n : String)
    (h1 : headerKeyEq "Content-Length" n = false)
    (h2 : headerKeyEq "Content-MD5" n = false) :
    hdrHas (addBody ext r b md5).headers n = hdrHas r.headers n := by
  cases b with
  | none =>
    simp only [addBody]
    split
    · rw [setHeader_has, h1]
      simp
    · exact removeHeader_has r h1
  | some s =>
    simp only [addBody]
    split
    · split
      · rw [setHeader_has, setHeader_has, h1, h2]
        simp
      · rw [setHeader_has, h1]
        simp
    · split
      · rw [setHeader_has, h2]
        simp
      · rfl

theorem addSignInfo_checkCrc64 (creds : Credentials) (ext : Externals)
    (r : HttpRequest) (msg : ServiceRequest) :
    (addSignInfo creds ext r msg).checkCrc64 = r.checkCrc64 := by
  unfold addSignInfo withSecurityToken
  split <;> rfl

theorem addSignInfo_auth (creds : Credentials) (ext : Externals)
    (r : HttpRequest) (msg : ServiceRequest) :
    hdrGet (addSignInfo creds ext r msg).headers "Authorization" =
      "OSS " ++ creds.accessKeyId ++ ":" ++
        ext.signerGenerate (canonicalOf (withSecurityToken creds r) msg)
          creds.accessKeySecret := by
  unfold addSignInfo
  exact hdrGet_set_pos _ _ (headerKeyEq_refl "Authorization")

theorem addUrl_headers (cfg : ClientConfiguration) (r : HttpRequest)
    (endpoint : String) (msg : ServiceRequest) :
    (addUrl cfg r endpoint msg).headers = r.headers := rfl

theorem addUrl_checkCrc64 (cfg : ClientConfiguration) (r : HttpRequest)
    (endpoint : String) (msg : ServiceRequest) :
    (addUrl cfg r endpoint msg).checkCrc64 = r.checkCrc64 := rfl

theorem addOther_headers (cfg : ClientConfiguration) (r : HttpRequest)
    (msg : ServiceRequest) : (addOther cfg r msg).headers = r.headers := by
  unfold addOther
  split <;> rfl

theorem addOther_url (cfg : ClientConfiguration) (r : HttpRequest)
    (msg : ServiceRequest) : (addOther cfg r msg).url = r.url := by
  unfold addOther
  split <;> rfl

theorem addOther_checkCrc64 (cfg : ClientConfiguration) (r : HttpRequest)
    (msg : ServiceRequest) :
    (addOther cfg r msg).checkCrc64 =
      ((cfg.enableCrc64 && msg.flags.checkCrc64 && !hdrHas r.headers "Range")
        || r.checkCrc64) := by
  unfold addOther
  cases h : (cfg.enableCrc64 && msg.flags.checkCrc64 && !hdrHas r.headers "Range") <;>
    simp [h]

theorem setUrl_checkCrc64 (r : HttpRequest) (u : Url) :
    (r.setUrl u).checkCrc64 = r.checkCrc64 := rfl

theorem setUrl_headers (r : HttpRequest) (u : Url) :
    (r.setUrl u).headers = r.headers := rfl

theorem setUrl_url (r : HttpRequest) (u : Url) :
    (r.setUrl u).url = some u := rfl

theorem initial_checkCrc64 (method : HttpMethod) :
    (initialHttpRequest method).checkCrc64 = false := rfl

theorem initial_headers (method : HttpMethod) :
    (initialHttpRequest method).headers = [] := rfl

theorem bool_crc_reorder (e f h : Bool) :
    ((e && f && !h) || false) = (f && e && !h) := by
  cases e <;> cases f <;> cases h <;> rfl

theorem buildHttpRequest_eq_of_flag (cfg : ClientConfiguration)
    (creds : Credentials) (ext : Externals) (endpoint : String)
    (msg : ServiceRequest) (method : HttpMethod)
    (hp : msg.flags.paramInPath = true) :
    buildHttpRequest cfg creds ext endpoint msg method =
      addOther cfg
        ((addBody ext (addHeaders cfg ext (initialHttpRequest method) msg.headers)
          msg.body msg.flags.contentMd5).setUrl ⟨msg.path⟩) msg := by
  unfold buildHttpRequest
  rw [hp]
  rfl

theorem buildHttpRequest_eq_of_noflag (cfg : ClientConfiguration)
    (creds : Credentials) (ext : Externals) (endpoint : String)
    (msg : ServiceRequest) (method : HttpMethod)
    (hp : msg.flags.paramInPath = false) :
    buildHttpRequest cfg creds ext endpoint msg method =
      addOther cfg
        (addUrl cfg
          (addSignInfo creds ext
            (addBody ext (addHeaders cfg ext (initialHttpRequest method) msg.headers)
              msg.body msg.flags.contentMd5) msg) endpoint msg) msg := by
  unfold buildHttpRequest
  rw [hp]
  rfl

/-- In-range integers are fixed by the 32-bit reinterpretation. -/
theorem toInt32_of_lt {n : Int} (h0 : 0 ≤ n) (h : n < 2 ^ 31) :
    toInt32 n = n := by
  unfold toInt32
  rw [Int.emod_eq_of_lt h0 (by omega), if_pos h]

/-- In-range integers are fixed by the 64-bit reinterpretation. -/
theorem toInt64_of_lt {n : Int} (h0 : 0 ≤ n) (h : n < 2 ^ 63) :
    toInt64 n = n := by
  unfold toInt64
  rw [Int.emod_eq_of_lt h0 (by omega), if_pos h]

/-- Up to attempt 30 the 32-bit shift and the 64-bit product do not
overflow, so the default delay is the exact power-of-two formula. -/
theorem calc_delay_eq (e : Error) (i : Nat) (hi : i ≤ 30) :
    defaultRetryStrategy.calcDealyTimeMs e i = 2 ^ i * 300 := by
  have h2 : (2 : Int) ^ i ≤ 2 ^ 30 := pow_le_pow_right₀ (by norm_num) hi
  have h0 : (0 : Int) ≤ 2 ^ i := by positivity
  have h32 : toInt32 ((2 : Int) ^ i) = 2 ^ i :=
    toInt32_of_lt h0 (lt_of_le_of_lt h2 (by norm_num))
  have hscale : defaultRetryStrategy.m_scaleFactor = 300 := rfl
  unfold DefaultRetryStrategy.calcDealyTimeMs
  rw [hscale, h32]
  exact toInt64_of_lt (by positivity)
    (lt_of_le_of_lt (mul_le_mul_of_nonneg_right h2 (by norm_num)) (by norm_num))

/-! Claim theorems. -/

/-- C1 (counterexample): the claim says the canonical resource is exactly
the single slash whenever the bucket is empty, in particular for an empty
bucket and a non-empty key; but addSignInfo appends a non-empty key even
when the bucket is empty, so for bucket empty and key nelson the canonical
resource is slash-nelson, not the single slash. -/
theorem canonical_resource_empty_bucket_counterexample :
    canonicalResource "" "nelson" = "/nelson" ∧
    canonicalResource "" "nelson" ≠ "/" := by
  constructor
  · rfl
  · decide

/-- C1 (amended): the canonical resource built by addSignInfo is
slash-bucket-slash-key when both are non-empty, slash-bucket-slash when only
the bucket is non-empty, slash-key when only the key is non-empty, and the
single slash only when both are empty. -/
theorem canonical_resource_cases (bucket key : String) :
    (bucket ≠ "" → key ≠ "" →
      canonicalResource bucket key = "/" ++ bucket ++ "/" ++ key) ∧
    (bucket ≠ "" → key = "" →
      canonicalResource bucket key = "/" ++ bucket ++ "/") ∧
    (bucket = "" → key ≠ "" →
      canonicalResource bucket key = "/" ++ key) ∧
    (bucket = "" → key = "" →
      canonicalResource bucket key = "/") := by
  unfold canonicalResource
  refine ⟨?_, ?_, ?_, ?_⟩ <;> intro h1 h2 <;> simp [h1, h2]

/-- C1 (witness): the amended case analysis evaluated at concrete bucket
and key strings. -/
theorem canonical_resource_cases_witness :
    canonicalResource "examplebucket" "nelson" = "/" ++ "examplebucket" ++ "/" ++ "nelson" ∧
    canonicalResource "examplebucket" "" = "/" ++ "examplebucket" ++ "/" ∧
    canonicalResource "" "" = "/" :=
  ⟨(canonical_resource_cases "examplebucket" "nelson").1 (by decide) (by decide),
   (canonical_resource_cases "examplebucket" "").2.1 (by decide) rfl,
   (canonical_resource_cases "" "").2.2.2 rfl rfl⟩

/-- C3: DefaultRetryStrategy::shouldRetry holds exactly when the attempt
count is below the default maximum of three and the status is either a 5xx
status in the interval from 500 up to but excluding 599 or one of the seven
curl transport error codes. -/
theorem should_retry_iff (e : Error) (a : Int) :
    defaultRetryStrategy.shouldRetry e a = true ↔
      (a < 3 ∧ ((500 ≤ e.status ∧ e.status < 599) ∨
        e.status = ERROR_CURL_BASE + 7 ∨ e.status = ERROR_CURL_BASE + 18 ∨
        e.status = ERROR_CURL_BASE + 23 ∨ e.status = ERROR_CURL_BASE + 28 ∨
        e.status = ERROR_CURL_BASE + 52 ∨ e.status = ERROR_CURL_BASE + 55 ∨
        e.status = ERROR_CURL_BASE + 56)) := by
  have hmax : defaultRetryStrategy.m_maxRetries = 3 := rfl
  unfold DefaultRetryStrategy.shouldRetry
  rw [hmax]
  by_cases h1 : a ≥ 3
  · rw [if_pos h1]
    simp only [Bool.false_eq_true, false_iff]
    exact fun hc => absurd hc.1 (by omega)
  · rw [if_neg h1]
    by_cases h2 : e.status > 499 ∧ e.status < 599
    · rw [if_pos h2]
      simp only [true_iff]
      exact ⟨by omega, Or.inl ⟨by omega, h2.2⟩⟩
    · rw [if_neg h2]
      by_cases h3 : e.status = ERROR_CURL_BASE + 7 ∨ e.status = ERROR_CURL_BASE + 18 ∨
          e.status = ERROR_CURL_BASE + 23 ∨ e.status = ERROR_CURL_BASE + 28 ∨
          e.status = ERROR_CURL_BASE + 52 ∨ e.status = ERROR_CURL_BASE + 55 ∨
          e.status = ERROR_CURL_BASE + 56
      · rw [if_pos h3]
        simp only [true_iff]
        exact ⟨by omega, Or.inr h3⟩
      · rw [if_neg h3]
        simp only [Bool.false_eq_true, false_iff]
        rintro ⟨ha, hb | hb⟩
        · exact h2 ⟨by omega, hb.2⟩
        · exact h3 hb

/-- C3 (witness): a 503 error on the first attempt is retried. -/
theorem should_retry_iff_witness :
    defaultRetryStrategy.shouldRetry ⟨503, "", "", []⟩ 0 = true :=
  (should_retry_iff ⟨503, "", "", []⟩ 0).mpr ⟨by decide, Or.inl (by decide)⟩

/-- C4 (counterexample): the claim asserts the formula and monotonicity for
every attempt count, but the shifted one is a 32-bit int: at attempt 31 the
shift wraps to the most negative int, so the delay is minus two to the 31
times 300 milliseconds, negative and strictly below the attempt-30 delay. -/
theorem calc_delay_overflow_counterexample :
    defaultRetryStrategy.calcDealyTimeMs ⟨0, "", "", []⟩ 31 = -(2 ^ 31) * 300 ∧
    defaultRetryStrategy.calcDealyTimeMs ⟨0, "", "", []⟩ 31 <
      defaultRetryStrategy.calcDealyTimeMs ⟨0, "", "", []⟩ 30 ∧
    defaultRetryStrategy.calcDealyTimeMs ⟨0, "", "", []⟩ 31 < 0 := by
  refine ⟨by decide, by decide, by decide⟩

/-- C4 (amended): for attempt counts up to 30, where the 32-bit shift does
not overflow, DefaultRetryStrategy::calcDealyTimeMs with the default scale
factor equals two to the attempt times 300 milliseconds, does not depend on
the error, and is monotonically non-decreasing from one attempt to the
next; past attempt 30 the int shift overflows and the delay turns negative. -/
theorem calc_delay_formula_monotone (e e2 : Error) (i : Nat) (hi : i ≤ 30) :
    defaultRetryStrategy.calcDealyTimeMs e i = 2 ^ i * 300 ∧
    defaultRetryStrategy.calcDealyTimeMs e i =
      defaultRetryStrategy.calcDealyTimeMs e2 i ∧
    (i < 30 → defaultRetryStrategy.calcDealyTimeMs e i ≤
      defaultRetryStrategy.calcDealyTimeMs e (i + 1)) := by
  refine ⟨calc_delay_eq e i hi, rfl, ?_⟩
  intro h30
  rw [calc_delay_eq e i hi, calc_delay_eq e (i + 1) (by omega)]
  exact mul_le_mul_of_nonneg_right
    (pow_le_pow_right₀ (by norm_num) (Nat.le_succ i)) (by norm_num)

/-- C4 (witness): at attempt 2 the delay is 1200 milliseconds and the next
delay is no smaller. -/
theorem calc_delay_formula_monotone_witness :
    defaultRetryStrategy.calcDealyTimeMs ⟨0, "", "", []⟩ 2 = 2 ^ 2 * 300 ∧
    defaultRetryStrategy.calcDealyTimeMs ⟨0, "", "", []⟩ 2 ≤
      defaultRetryStrategy.calcDealyTimeMs ⟨0, "", "", []⟩ 3 :=
  ⟨(calc_delay_formula_monotone ⟨0, "", "", []⟩ ⟨0, "", "", []⟩ 2 (by decide)).1,
   (calc_delay_formula_monotone ⟨0, "", "", []⟩ ⟨0, "", "", []⟩ 2
     (by decide)).2.2 (by decide)⟩

/-- C7: when validate() is nonzero, MakeRequest returns a failure whose code
is exactly ValidateError with the message produced by validateMessage for
that code, and the transport dispatch (AttemptRequest) is never invoked. -/
theorem make_request_validate_error (request : GenericOssRequest)
    (attemptRequest : Unit → ClientOutcome) (xmlParse : String → XmlParse)
    (h : request.validateCode ≠ 0) :
    MakeRequest request attemptRequest xmlParse =
      (OssOutcome.failure
        { code := "ValidateError",
          message := request.validateMessage request.validateCode,
          requestId := "", host := "" }, false) := by
  unfold MakeRequest
  rw [if_pos h]

/-- C7 (witness): MakeRequest on a request whose validate() returns one
produces the ValidateError failure without invoking the transport. -/
theorem make_request_validate_error_witness :
    MakeRequest ⟨1, fun _ => "bucket name invalid"⟩
      (fun _ => ClientOutcome.failure ⟨0, "", "", []⟩)
      (fun _ => XmlParse.success none) =
      (OssOutcome.failure
        { code := "ValidateError", message := "bucket name invalid",
          requestId := "", host := "" }, false) :=
  make_request_validate_error _ _ _ (by decide)

/-- C8 (counterexample): the claim says validation fails when the uploadId
is empty; but CompleteMultipartUploadRequest::validate never inspects the
uploadId, so a request with a valid bucket and key, a non-empty part list,
and an empty uploadId validates successfully (returns zero). -/
theorem complete_multipart_uploadid_counterexample :
    CompleteMultipartUploadRequest.validate
        ⟨"examplebucket", "nelson", [⟨1, "etag-1"⟩], ""⟩ = 0 ∧
    (⟨"examplebucket", "nelson", [⟨1, "etag-1"⟩], ""⟩ :
        CompleteMultipartUploadRequest).uploadId = "" ∧
    (⟨"examplebucket", "nelson", [⟨1, "etag-1"⟩], ""⟩ :
        CompleteMultipartUploadRequest).partList ≠ [] := by
  refine ⟨?_, rfl, by decide⟩
  decide

/-- C8 (amended): CompleteMultipartUploadRequest::validate returns a nonzero
code exactly when the bucket name is invalid, the object key is invalid, or
the part list is empty; the uploadId is not checked. -/
theorem complete_multipart_validate_iff (r : CompleteMultipartUploadRequest) :
    r.validate ≠ 0 ↔
      (IsValidBucketName r.bucket = false ∨ IsValidObjectKey r.key = false ∨
        r.partList = []) := by
  unfold CompleteMultipartUploadRequest.validate OssObjectRequest.validate
  cases hb : IsValidBucketName r.bucket
  · simp only [Bool.not_false, if_true]
    have : ARG_ERROR_BUCKET_NAME ≠ 0 := by decide
    simp [this]
  · simp only [Bool.not_true, Bool.false_eq_true, if_false]
    cases hk : IsValidObjectKey r.key
    · simp only [Bool.not_false, if_true]
      have : ARG_ERROR_OBJECT_NAME ≠ 0 := by decide
      simp [this]
    · simp only [Bool.not_true, Bool.false_eq_true, if_false, if_neg (by decide : ¬((0 : Int) ≠ 0))]
      cases he : r.partList.isEmpty
      · have hne : r.partList ≠ [] := by
          intro hnil
          rw [hnil] at he
          exact absurd he (by decide)
        simp [he, hne]
      · have hnil : r.partList = [] := List.isEmpty_iff.mp he
        have : ARG_ERROR_MULTIPARTUPLOAD_PARTLIST_EMPTY ≠ 0 := by decide
        simp [he, hnil, this]

/-- C8 (witness): an empty part list makes validation fail. -/
theorem complete_multipart_validate_iff_witness :
    CompleteMultipartUploadRequest.validate
      ⟨"examplebucket", "nelson", [], "uploadid-1"⟩ ≠ 0 :=
  (complete_multipart_validate_iff
    ⟨"examplebucket", "nelson", [], "uploadid-1"⟩).mpr (Or.inr (Or.inr rfl))

/-- C10: when a success outcome's header collection lacks the
x-oss-symlink-target header, GetSymlink hits the unchecked lookup and aborts
(returns none in the total embedding); when the ETag header is absent both
GetSymlink and CreateSymlink abort the same way. -/
theorem symlink_header_lookup_none (result : ServiceResult) :
    (hdrFind? result.headers "x-oss-symlink-target" = none →
      GetSymlink (OssOutcome.success result) = none) ∧
    (hdrFind? result.headers "ETag" = none →
      GetSymlink (OssOutcome.success result) = none ∧
      CreateSymlink (OssOutcome.success result) = none) := by
  constructor
  · intro h
    cases h2 : hdrFind? result.headers "ETag" <;> simp [GetSymlink, h, h2]
  · intro h
    constructor
    · cases h2 : hdrFind? result.headers "x-oss-symlink-target" <;>
        simp [GetSymlink, h, h2]
    · simp [CreateSymlink, h]

/-- C10 (witness): a success outcome with an empty header collection makes
both symlink operations abort on the unchecked header lookup. -/
theorem symlink_header_lookup_none_witness :
    GetSymlink (OssOutcome.success
      { requestId := "", payload := "", responseCode := 200, headers := [] }) = none ∧
    CreateSymlink (OssOutcome.success
      { requestId := "", payload := "", responseCode := 200, headers := [] }) = none :=
  ⟨(symlink_header_lookup_none
      { requestId := "", payload := "", responseCode := 200, headers := [] }).1 rfl,
   ((symlink_header_lookup_none
      { requestId := "", payload := "", responseCode := 200, headers := [] }).2 rfl).2⟩

/-- C6: for a response that passes the base check, whose request enabled
CRC64 checking, and which carries the x-oss-hash-crc64ecma header,
hasResponseError compares the client CRC64 with the decimal header value:
on mismatch it reports an error whose status code is ERROR_CRC_INCONSISTENT
and whose message is the diagnostic naming the expected (server) hash, the
calculated (client) hash, the transferred byte count, and the server
request id; on equality it reports no error and leaves the response
unchanged. -/
theorem crc_mismatch_error_spec (response : HttpResponse)
    (hbase : baseHasResponseError response = false)
    (hcrc : response.reqHasCheckCrc64 = true)
    (hhdr : hdrHas response.headers "x-oss-hash-crc64ecma" = true) :
    (response.reqCrc64Result ≠
        strtoull10 (hdrGet response.headers "x-oss-hash-crc64ecma") →
      hasResponseError response =
        (true,
         { response with
             statusCode := ERROR_CRC_INCONSISTENT,
             statusMsg := crcMismatchMsg
               (strtoull10 (hdrGet response.headers "x-oss-hash-crc64ecma"))
               response.reqCrc64Result
               response.reqTransferedBytes
               (hdrGet response.headers "x-oss-request-id") })) ∧
    (response.reqCrc64Result =
        strtoull10 (hdrGet response.headers "x-oss-hash-crc64ecma") →
      hasResponseError response = (false, response)) := by
  constructor
  · intro h
    unfold hasResponseError
    rw [if_neg (by simp [hbase]), if_pos (by simp [hcrc, hhdr]), if_pos h]
  · intro h
    unfold hasResponseError
    rw [if_neg (by simp [hbase]), if_pos (by simp [hcrc, hhdr]),
      if_neg (fun hn => hn h)]

/-- C6 (witness): the server declares hash 12345 while the client computed
67890 on 1024 transferred bytes; the outcome carries the
ERROR_CRC_INCONSISTENT status and the diagnostic naming both hashes, the
byte count and the request id. -/
theorem crc_mismatch_error_spec_witness :
    hasResponseError
      { statusCode := 200,
        headers := [("x-oss-hash-crc64ecma", "12345"), ("x-oss-request-id", "req-1")],
        reqHasCheckCrc64 := true, reqCrc64Result := 67890,
        reqTransferedBytes := 1024 } =
      (true,
       { statusCode := ERROR_CRC_INCONSISTENT,
         statusMsg := crcMismatchMsg 12345 67890 1024 "req-1",
         headers := [("x-oss-hash-crc64ecma", "12345"), ("x-oss-request-id", "req-1")],
         reqHasCheckCrc64 := true, reqCrc64Result := 67890,
         reqTransferedBytes := 1024 }) :=
  (crc_mismatch_error_spec
      { statusCode := 200,
        headers := [("x-oss-hash-crc64ecma", "12345"), ("x-oss-request-id", "req-1")],
        reqHasCheckCrc64 := true, reqCrc64Result := 67890,
        reqTransferedBytes := 1024 }
      (by decide) rfl (by decide)).1 (by decide)

/-- C9 (counterexample): the claim says any root whose name is not Error
yields the ParseXMLError envelope; but buildError compares only the first
five characters of the root name (strncmp with length five), so a root
named Errors is treated as the error envelope and its children are
extracted. -/
theorem build_error_root_name_counterexample :
    buildError ⟨403, "ServerError", "<Errors><Code>AccessDenied</Code></Errors>", []⟩
        (XmlParse.success (some ⟨"Errors", [⟨"Code", [], "AccessDenied"⟩], ""⟩)) =
      { code := "AccessDenied", message := "", requestId := "", host := "" } ∧
    "Errors" ≠ "Error" := by
  constructor
  · rfl
  · decide

/-- C9 (amended): for a server error with status in the 300 to 599 range and
a non-empty well-formed XML body, a root whose name does not begin with the
five characters of the word Error yields code ParseXMLError and the message
naming the raw content; a root whose name does begin with those five
characters (such as Error itself, or Errors) has its Code, Message and
HostId child texts extracted, with missing children yielding empty strings,
and a non-empty RequestId child text is carried over as the request id. -/
theorem build_error_amended (error : Error) (root : XmlElement)
    (h1 : 299 < error.status) (h2 : error.status < 600)
    (h3 : error.message ≠ "") :
    (rootNameIsError root.name = false →
      (buildError error (XmlParse.success (some root))).code = "ParseXMLError" ∧
      (buildError error (XmlParse.success (some root))).message =
        "Xml format invalid, root node name is not Error. the content is:\n"
          ++ error.message) ∧
    (rootNameIsError root.name = true →
      (buildError error (XmlParse.success (some root))).code = childText root "Code" ∧
      (buildError error (XmlParse.success (some root))).message = childText root "Message" ∧
      (buildError error (XmlParse.success (some root))).host = childText root "HostId" ∧
      (childText root "RequestId" ≠ "" →
        (buildError error (XmlParse.success (some root))).requestId =
          childText root "RequestId") ∧
      (root.children.find? (fun c => c.name == "Code") = none →
        (buildError error (XmlParse.success (some root))).code = "")) := by
  have hcond : error.status > 299 ∧ error.status < 600 ∧ error.message ≠ "" :=
    ⟨h1, h2, h3⟩
  constructor
  · intro hr
    unfold buildError
    rw [if_pos hcond]
    simp only [hr, Bool.false_eq_true, if_false]
    cases hfind : hdrFind? error.headers "x-oss-request-id" <;>
      simp [backfillRequestId, hfind]
  · intro hr
    unfold buildError
    rw [if_pos hcond]
    simp only [hr, if_true]
    refine ⟨?_, ?_, ?_, ?_, ?_⟩
    · cases hfind : hdrFind? error.headers "x-oss-request-id" <;>
        by_cases hrid : childText root "RequestId" = "" <;>
        simp_all [backfillRequestId]
    · cases hfind : hdrFind? error.headers "x-oss-request-id" <;>
        by_cases hrid : childText root "RequestId" = "" <;>
        simp_all [backfillRequestId]
    · cases hfind : hdrFind? error.headers "x-oss-request-id" <;>
        by_cases hrid : childText root "RequestId" = "" <;>
        simp_all [backfillRequestId]
    · intro hne
      rw [backfillRequestId, if_neg (by simpa using hne)]
    · intro hnone
      have hct : childText root "Code" = "" := by
        unfold childText
        rw [hnone]
      cases hfind : hdrFind? error.headers "x-oss-request-id" <;>
        by_cases hrid : childText root "RequestId" = "" <;>
        simp_all [backfillRequestId]

/-- C9 (witness): a 404 body whose root is named Err (name does not begin
with Error) produces the ParseXMLError code and the raw-content message. -/
theorem build_error_amended_witness :
    (buildError ⟨404, "", "<Err/>", []⟩
        (XmlParse.success (some ⟨"Err", [], ""⟩))).code = "ParseXMLError" ∧
    (buildError ⟨404, "", "<Err/>", []⟩
        (XmlParse.success (some ⟨"Err", [], ""⟩))).message =
      "Xml format invalid, root node name is not Error. the content is:\n"
        ++ "<Err/>" :=
  (build_error_amended ⟨404, "", "<Err/>", []⟩ ⟨"Err", [], ""⟩
    (by decide) (by decide) (by decide)).1 (by decide)

/-- C5: the outgoing HttpRequest built by buildHttpRequest is marked for
CRC64 checking exactly when the request's CHECK_CRC64 flag is set, the
configuration's enableCrc64 is on, and the outgoing request carries no Range
header. -/
theorem check_crc64_flag_iff (cfg : ClientConfiguration) (creds : Credentials)
    (ext : Externals) (endpoint : String) (msg : ServiceRequest)
    (method : HttpMethod) :
    (buildHttpRequest cfg creds ext endpoint msg method).checkCrc64 =
      (msg.flags.checkCrc64 && cfg.enableCrc64 &&
        !hdrHas (buildHttpRequest cfg creds ext endpoint msg method).headers
          "Range") := by
  cases hp : msg.flags.paramInPath
  · rw [buildHttpRequest_eq_of_noflag cfg creds ext endpoint msg method hp,
      addOther_checkCrc64, addOther_headers, addUrl_checkCrc64,
      addSignInfo_checkCrc64, addBody_checkCrc64, addHeaders_checkCrc64,
      initial_checkCrc64]
    exact bool_crc_reorder _ _ _
  · rw [buildHttpRequest_eq_of_flag cfg creds ext endpoint msg method hp,
      addOther_checkCrc64, addOther_headers, setUrl_checkCrc64,
      addBody_checkCrc64, addHeaders_checkCrc64, initial_checkCrc64]
    exact bool_crc_reorder _ _ _

/-- C2 (counterexample): the claim says a request that is not a UrlRequest
is signed even when the PARAM_IN_PATH flag is set; but buildHttpRequest
skips addSignInfo for every request with that flag, so the built request
carries no Authorization header at all. -/
theorem param_in_path_skips_signing_counterexample :
    hdrHas
      (buildHttpRequest { } ⟨"AKID", "SECRET", ""⟩
        ⟨"Wed, 28 Nov 2018 09:26:08 GMT", fun _ => "", fun _ _ => ""⟩
        "oss-cn-hangzhou.aliyuncs.com"
        { flags := { paramInPath := true }, path := "/bucket/key?acl" }
        HttpMethod.Get).headers "Authorization" = false := by
  decide

/-- C2 (amended): buildHttpRequest signs only when the PARAM_IN_PATH flag is
clear: with the flag set the URL is the request's pre-composed path used
verbatim and no Authorization header is added; with the flag clear the
Authorization header is set to OSS keyId colon signature, where the
signature is the signer applied to the canonical string of the request
state at signing time and the credentials secret. -/
theorem build_http_request_signing_amended (cfg : ClientConfiguration)
    (creds : Credentials) (ext : Externals) (endpoint : String)
    (msg : ServiceRequest) (method : HttpMethod)
    (hAuth : ∀ p ∈ msg.headers, headerKeyEq p.1 "Authorization" = false) :
    (msg.flags.paramInPath = true →
      (buildHttpRequest cfg creds ext endpoint msg method).url = some ⟨msg.path⟩ ∧
      hdrHas (buildHttpRequest cfg creds ext endpoint msg method).headers
        "Authorization" = false) ∧
    (msg.flags.paramInPath = false →
      hdrGet (buildHttpRequest cfg creds ext endpoint msg method).headers
          "Authorization" =
        "OSS " ++ creds.accessKeyId ++ ":" ++
          ext.signerGenerate
            (canonicalOf
              (withSecurityToken creds
                (addBody ext
                  (addHeaders cfg ext (initialHttpRequest method) msg.headers)
                  msg.body msg.flags.contentMd5))
              msg)
            creds.accessKeySecret) := by
  constructor
  · intro hp
    rw [buildHttpRequest_eq_of_flag cfg creds ext endpoint msg method hp]
    constructor
    · rw [addOther_url, setUrl_url]
    · rw [addOther_headers, setUrl_headers,
        addBody_has ext _ msg.body msg.flags.contentMd5 "Authorization" rfl rfl,
        addHeaders_has cfg ext _ msg.headers "Authorization" rfl rfl,
        initial_headers, hdrHas_nil, Bool.or_false]
      exact List.any_eq_false.mpr (fun p hmem => by rw [hAuth p hmem]; decide)
  · intro hp
    rw [buildHttpRequest_eq_of_noflag cfg creds ext endpoint msg method hp,
      addOther_headers, addUrl_headers, addSignInfo_auth]

/-- C2 (witness): for a default request with no flag and no headers, the
built request's Authorization header is the OSS keyId colon signature over
the canonical string. -/
theorem build_http_request_signing_amended_witness :
    hdrGet
      (buildHttpRequest { } ⟨"AKID", "SECRET", ""⟩
        ⟨"GMT-now", fun _ => "", fun c s => c ++ "#" ++ s⟩
        "ep" { } HttpMethod.Get).headers "Authorization" =
      "OSS " ++ "AKID" ++ ":" ++
        (canonicalOf
          (withSecurityToken ⟨"AKID", "SECRET", ""⟩
            (addBody ⟨"GMT-now", fun _ => "", fun c s => c ++ "#" ++ s⟩
              (addHeaders { } ⟨"GMT-now", fun _ => "", fun c s => c ++ "#" ++ s⟩
                (initialHttpRequest HttpMethod.Get) [])
              none false))
          { }) ++ "#" ++ "SECRET" :=
  (build_http_request_signing_amended { } ⟨"AKID", "SECRET", ""⟩
    ⟨"GMT-now", fun _ => "", fun c s => c ++ "#" ++ s⟩ "ep" { } HttpMethod.Get
    (fun p hmem => absurd hmem (List.not_mem_nil p))).2 rfl

end OssSdk
